import Mathlib

/-!
Verification of the VPN-detection scoring engine
(`src/lib/detectionEngine.ts`, class `DetectionEngine`, method
`calculateOverallResult` together with its helpers
`timezoneToContinent`, `countryToContinent`, `getTimezoneFromCountryCode`).

Modelling conventions:
* JavaScript `undefined` (an absent optional field, or an absent
  sub-record of `DetectionResults`) is `Option.none`.
* JavaScript numbers that feed the score are modelled as `Int`; the
  two continuous contributions multiply by `0.5`, so the engine's
  running `confidenceScore` is tracked DOUBLED (`confidenceScore2`,
  measured in half-points) to stay in integer arithmetic.  A weight
  of `w` in the source appears as `2*w` here.
* JavaScript `Math.round` rounds halves toward positive infinity:
  `Math.round(x) = floor(x + 1/2)`.  For a doubled score `n` this is
  `(n + 1) / 2` with Lean's flooring integer division.
* The source accumulates `confidenceScore`, `detectedTypes` and
  `riskFactors` in one pass of if-blocks.  Here each if-condition is a
  named `...Fires` predicate (translated verbatim from the source
  condition) and the three accumulators are three parallel
  definitions that fold the same conditions in the same source order.
* Fields of the TypeScript records that `calculateOverallResult`
  never reads (publicIp, isp, canvasHash, ...) are omitted from the
  Lean structures.
-/

namespace VpnDetection

/-- Subset of `IpAnalysisResult` (src/types/detection.ts) read by the
scoring code. `timezone` is optional in the TypeScript interface;
`riskScore` is declared `number` but the engine guards it with
`typeof === 'number'`, so a malformed non-numeric value is modelled
as `none`. -/
structure IpAnalysisResult where
  country : String
  timezone : Option String
  isDatacenter : Bool
  isHosting : Bool
  isTor : Bool
  vpnDetected : Bool
  blacklisted : Bool
  riskScore : Option Int
deriving Repr, DecidableEq

/-- Subset of the WebRTC leak result (src/lib/webrtcLeak.ts
`detectLeak`) read by the scoring code, plus `localIps` and
`localIpCountry` which the result carries but the live engine never
reads.  `candidateTypes` is accessed through an `as any` cast in the
source and is absent (`none`) in the result the leak detector
actually produces. -/
structure WebRTCLeakResult where
  hasLeak : Bool
  localIps : List String
  localIpCountry : Option String
  candidateTypes : Option (List String)
deriving Repr, DecidableEq

/-- Subset of `FingerprintResult` read by the scoring code.
`timezone` is a required string in the TypeScript interface;
`suspicionScore` is guarded by `typeof === 'number'` in the source,
so a malformed value is modelled as `none`. -/
structure FingerprintResult where
  timezone : String
  suspicionScore : Option Int
deriving Repr, DecidableEq

/-- Subset of `LocationMismatchResult` read by the scoring code.
`message` is accessed through an `as any` cast in the source
(`(results.locationMismatch as any).message || config.risk`). -/
structure LocationMismatchResult where
  hasMismatch : Bool
  message : Option String
deriving Repr, DecidableEq

/-- Subset of `BotDetectionResult` read by the scoring code. -/
structure BotDetectionResult where
  isBot : Bool
deriving Repr, DecidableEq

/-- The evidence bundle `DetectionResults` (src/types/detection.ts):
every sub-record is optional. -/
structure DetectionResults where
  ipAnalysis : Option IpAnalysisResult := none
  webrtcLeak : Option WebRTCLeakResult := none
  fingerprint : Option FingerprintResult := none
  locationMismatch : Option LocationMismatchResult := none
  botDetection : Option BotDetectionResult := none
deriving Repr, DecidableEq

/-- The verdict `DetectionResult` (src/types/detection.ts) without the
echoed evidence bundle and the wall-clock timestamp. -/
structure DetectionResult where
  isVpnDetected : Bool
  confidenceScore : Int
  detectedTypes : List String
  riskFactors : List String
deriving Repr, DecidableEq

/-- ASCII uppercase letter, the character class `[A-Z]` of the
country-code regex. -/
def isUpperAZ (c : Char) : Bool := decide ('A' ≤ c) && decide (c ≤ 'Z')

/-- JavaScript regex word character `\w`, i.e. `[A-Za-z0-9_]`,
used by the word-boundary assertions of the country-code regex. -/
def isWordChar (c : Char) : Bool := c.isAlpha || c.isDigit || c == '_'

/-- Scan for the leftmost match of the JavaScript regex
`\b([A-Z]{2})\b` (used twice in `calculateOverallResult` to pull a
country code out of the free-text country field): two consecutive
ASCII uppercase letters with a word boundary on each side.  The first
argument is the character preceding the scan position (`none` at the
start of the string). -/
def findCountryCodeMatchAux : Option Char → List Char → Option String
  | _, [] => none
  | prev, a :: rest =>
    match rest with
    | [] => none
    | b :: rest2 =>
      if isUpperAZ a && isUpperAZ b
          && (match prev with | none => true | some p => !isWordChar p)
          && (match rest2 with | [] => true | c :: _ => !isWordChar c)
      then some (String.mk [a, b])
      else findCountryCodeMatchAux (some a) rest

/-- Leftmost match of `\b([A-Z]{2})\b` in a string, if any. -/
def findCountryCodeMatch (s : String) : Option String :=
  findCountryCodeMatchAux none s.data

/-- Character-level `trim` (strip leading and trailing whitespace),
modelling `String.prototype.trim`. -/
def trimmedChars (s : String) : List Char :=
  ((s.data.dropWhile Char.isWhitespace).reverse.dropWhile Char.isWhitespace).reverse

/-- Character-level `toUpperCase`, modelling
`String.prototype.toUpperCase` on the ASCII codes that occur here. -/
def toUpperString (s : String) : String :=
  String.mk (s.data.map Char.toUpper)

/-- Country-code extraction used (as an identical inline block) in the
timezone backfill and in the continent check: trim the country text,
take the regex match if any, otherwise the whole text when it has
exactly two characters, otherwise the empty string. -/
def extractCountryCode (country : String) : String :=
  let countryString := trimmedChars country
  match findCountryCodeMatchAux none countryString with
  | some code => code
  | none => if countryString.length == 2 then String.mk countryString else ""

/-- The country-code to continent table of `countryToContinent`
(src/lib/detectionEngine.ts lines 70-321), in source order.  The
source object has no duplicate keys, so first-match lookup agrees
with the JavaScript object lookup. -/
def countryContinentMapping : List (String × String) := [
  ("AF", "Asia"),
  ("AX", "Europe"),
  ("AL", "Europe"),
  ("DZ", "Africa"),
  ("AS", "Oceania"),
  ("AD", "Europe"),
  ("AO", "Africa"),
  ("AI", "North America"),
  ("AQ", "Antarctica"),
  ("AG", "North America"),
  ("AR", "South America"),
  ("AM", "Asia"),
  ("AW", "North America"),
  ("AU", "Oceania"),
  ("AT", "Europe"),
  ("AZ", "Asia"),
  ("BS", "North America"),
  ("BH", "Asia"),
  ("BD", "Asia"),
  ("BB", "North America"),
  ("BY", "Europe"),
  ("BE", "Europe"),
  ("BZ", "North America"),
  ("BJ", "Africa"),
  ("BM", "North America"),
  ("BT", "Asia"),
  ("BO", "South America"),
  ("BQ", "North America"),
  ("BA", "Europe"),
  ("BW", "Africa"),
  ("BV", "Antarctica"),
  ("BR", "South America"),
  ("IO", "Asia"),
  ("BN", "Asia"),
  ("BG", "Europe"),
  ("BF", "Africa"),
  ("BI", "Africa"),
  ("CV", "Africa"),
  ("KH", "Asia"),
  ("CM", "Africa"),
  ("CA", "North America"),
  ("KY", "North America"),
  ("CF", "Africa"),
  ("TD", "Africa"),
  ("CL", "South America"),
  ("CN", "Asia"),
  ("CX", "Asia"),
  ("CC", "Asia"),
  ("CO", "South America"),
  ("KM", "Africa"),
  ("CG", "Africa"),
  ("CD", "Africa"),
  ("CK", "Oceania"),
  ("CR", "North America"),
  ("CI", "Africa"),
  ("HR", "Europe"),
  ("CU", "North America"),
  ("CW", "North America"),
  ("CY", "Asia"),
  ("CZ", "Europe"),
  ("DK", "Europe"),
  ("DJ", "Africa"),
  ("DM", "North America"),
  ("DO", "North America"),
  ("EC", "South America"),
  ("EG", "Africa"),
  ("SV", "North America"),
  ("GQ", "Africa"),
  ("ER", "Africa"),
  ("EE", "Europe"),
  ("SZ", "Africa"),
  ("ET", "Africa"),
  ("FK", "South America"),
  ("FO", "Europe"),
  ("FJ", "Oceania"),
  ("FI", "Europe"),
  ("FR", "Europe"),
  ("GF", "South America"),
  ("PF", "Oceania"),
  ("TF", "Antarctica"),
  ("GA", "Africa"),
  ("GM", "Africa"),
  ("GE", "Asia"),
  ("DE", "Europe"),
  ("GH", "Africa"),
  ("GI", "Europe"),
  ("GR", "Europe"),
  ("GL", "North America"),
  ("GD", "North America"),
  ("GP", "North America"),
  ("GU", "Oceania"),
  ("GT", "North America"),
  ("GG", "Europe"),
  ("GN", "Africa"),
  ("GW", "Africa"),
  ("GY", "South America"),
  ("HT", "North America"),
  ("HM", "Antarctica"),
  ("VA", "Europe"),
  ("HN", "North America"),
  ("HK", "Asia"),
  ("HU", "Europe"),
  ("IS", "Europe"),
  ("IN", "Asia"),
  ("ID", "Asia"),
  ("IR", "Asia"),
  ("IQ", "Asia"),
  ("IE", "Europe"),
  ("IM", "Europe"),
  ("IL", "Asia"),
  ("IT", "Europe"),
  ("JM", "North America"),
  ("JP", "Asia"),
  ("JE", "Europe"),
  ("JO", "Asia"),
  ("KZ", "Asia"),
  ("KE", "Africa"),
  ("KI", "Oceania"),
  ("KP", "Asia"),
  ("KR", "Asia"),
  ("KW", "Asia"),
  ("KG", "Asia"),
  ("LA", "Asia"),
  ("LV", "Europe"),
  ("LB", "Asia"),
  ("LS", "Africa"),
  ("LR", "Africa"),
  ("LY", "Africa"),
  ("LI", "Europe"),
  ("LT", "Europe"),
  ("LU", "Europe"),
  ("MO", "Asia"),
  ("MG", "Africa"),
  ("MW", "Africa"),
  ("MY", "Asia"),
  ("MV", "Asia"),
  ("ML", "Africa"),
  ("MT", "Europe"),
  ("MH", "Oceania"),
  ("MQ", "North America"),
  ("MR", "Africa"),
  ("MU", "Africa"),
  ("YT", "Africa"),
  ("MX", "North America"),
  ("FM", "Oceania"),
  ("MD", "Europe"),
  ("MC", "Europe"),
  ("MN", "Asia"),
  ("ME", "Europe"),
  ("MS", "North America"),
  ("MA", "Africa"),
  ("MZ", "Africa"),
  ("MM", "Asia"),
  ("NA", "Africa"),
  ("NR", "Oceania"),
  ("NP", "Asia"),
  ("NL", "Europe"),
  ("NC", "Oceania"),
  ("NZ", "Oceania"),
  ("NI", "North America"),
  ("NE", "Africa"),
  ("NG", "Africa"),
  ("NU", "Oceania"),
  ("NF", "Oceania"),
  ("MK", "Europe"),
  ("MP", "Oceania"),
  ("NO", "Europe"),
  ("OM", "Asia"),
  ("PK", "Asia"),
  ("PW", "Oceania"),
  ("PS", "Asia"),
  ("PA", "North America"),
  ("PG", "Oceania"),
  ("PY", "South America"),
  ("PE", "South America"),
  ("PH", "Asia"),
  ("PN", "Oceania"),
  ("PL", "Europe"),
  ("PT", "Europe"),
  ("PR", "North America"),
  ("QA", "Asia"),
  ("RE", "Africa"),
  ("RO", "Europe"),
  ("RU", "Europe"),
  ("RW", "Africa"),
  ("BL", "North America"),
  ("SH", "Africa"),
  ("KN", "North America"),
  ("LC", "North America"),
  ("MF", "North America"),
  ("PM", "North America"),
  ("VC", "North America"),
  ("WS", "Oceania"),
  ("SM", "Europe"),
  ("ST", "Africa"),
  ("SA", "Asia"),
  ("SN", "Africa"),
  ("RS", "Europe"),
  ("SC", "Africa"),
  ("SL", "Africa"),
  ("SG", "Asia"),
  ("SX", "North America"),
  ("SK", "Europe"),
  ("SI", "Europe"),
  ("SB", "Oceania"),
  ("SO", "Africa"),
  ("ZA", "Africa"),
  ("GS", "Antarctica"),
  ("SS", "Africa"),
  ("ES", "Europe"),
  ("LK", "Asia"),
  ("SD", "Africa"),
  ("SR", "South America"),
  ("SJ", "Europe"),
  ("SE", "Europe"),
  ("CH", "Europe"),
  ("SY", "Asia"),
  ("TW", "Asia"),
  ("TJ", "Asia"),
  ("TZ", "Africa"),
  ("TH", "Asia"),
  ("TL", "Asia"),
  ("TG", "Africa"),
  ("TK", "Oceania"),
  ("TO", "Oceania"),
  ("TT", "North America"),
  ("TN", "Africa"),
  ("TR", "Europe"),
  ("TM", "Asia"),
  ("TC", "North America"),
  ("TV", "Oceania"),
  ("UG", "Africa"),
  ("UA", "Europe"),
  ("AE", "Asia"),
  ("GB", "Europe"),
  ("US", "North America"),
  ("UM", "Oceania"),
  ("UY", "South America"),
  ("UZ", "Asia"),
  ("VU", "Oceania"),
  ("VE", "South America"),
  ("VN", "Asia"),
  ("VG", "North America"),
  ("VI", "North America"),
  ("WF", "Oceania"),
  ("EH", "Africa"),
  ("YE", "Asia"),
  ("ZM", "Africa"),
  ("ZW", "Africa")
]

/-- Method `countryToContinent`: look the uppercased code up in the
table, `null` when absent (all table values are nonempty strings, so
the JavaScript falsiness coercion never fires on a found value). -/
def countryToContinent (countryCode : String) : Option String :=
  countryContinentMapping.lookup (toUpperString countryCode)

/-- The country-code to representative-timezone table of
`getTimezoneFromCountryCode` (src/lib/detectionEngine.ts lines
325-575), in source order.  No duplicate keys. -/
def countryTimezoneMap : List (String × String) := [
  ("AF", "Asia/Kabul"),
  ("AL", "Europe/Tirane"),
  ("DZ", "Africa/Algiers"),
  ("AS", "Pacific/Pago_Pago"),
  ("AD", "Europe/Andorra"),
  ("AO", "Africa/Luanda"),
  ("AI", "America/Anguilla"),
  ("AQ", "Antarctica/Palmer"),
  ("AG", "America/Antigua"),
  ("AR", "America/Argentina/Buenos_Aires"),
  ("AM", "Asia/Yerevan"),
  ("AW", "America/Aruba"),
  ("AU", "Australia/Sydney"),
  ("AT", "Europe/Vienna"),
  ("AZ", "Asia/Baku"),
  ("BS", "America/Nassau"),
  ("BH", "Asia/Bahrain"),
  ("BD", "Asia/Dhaka"),
  ("BB", "America/Barbados"),
  ("BY", "Europe/Minsk"),
  ("BE", "Europe/Brussels"),
  ("BZ", "America/Belize"),
  ("BJ", "Africa/Porto-Novo"),
  ("BM", "Atlantic/Bermuda"),
  ("BT", "Asia/Thimphu"),
  ("BO", "America/La_Paz"),
  ("BQ", "America/Kralendijk"),
  ("BA", "Europe/Sarajevo"),
  ("BW", "Africa/Gaborone"),
  ("BV", "Antarctica/Bouvet"),
  ("BR", "America/Sao_Paulo"),
  ("IO", "Indian/Chagos"),
  ("BN", "Asia/Brunei"),
  ("BG", "Europe/Sofia"),
  ("BF", "Africa/Ouagadougou"),
  ("BI", "Africa/Bujumbura"),
  ("KH", "Asia/Phnom_Penh"),
  ("CM", "Africa/Douala"),
  ("CA", "America/Toronto"),
  ("CV", "Atlantic/Cape_Verde"),
  ("KY", "America/Cayman"),
  ("CF", "Africa/Bangui"),
  ("TD", "Africa/Ndjamena"),
  ("CL", "America/Santiago"),
  ("CN", "Asia/Shanghai"),
  ("CX", "Indian/Christmas"),
  ("CC", "Indian/Cocos"),
  ("CO", "America/Bogota"),
  ("KM", "Indian/Comoro"),
  ("CG", "Africa/Brazzaville"),
  ("CD", "Africa/Kinshasa"),
  ("CK", "Pacific/Rarotonga"),
  ("CR", "America/Costa_Rica"),
  ("CI", "Africa/Abidjan"),
  ("HR", "Europe/Zagreb"),
  ("CU", "America/Havana"),
  ("CW", "America/Curacao"),
  ("CY", "Asia/Nicosia"),
  ("CZ", "Europe/Prague"),
  ("DK", "Europe/Copenhagen"),
  ("DJ", "Africa/Djibouti"),
  ("DM", "America/Dominica"),
  ("DO", "America/Santo_Domingo"),
  ("EC", "America/Guayaquil"),
  ("EG", "Africa/Cairo"),
  ("SV", "America/El_Salvador"),
  ("GQ", "Africa/Malabo"),
  ("ER", "Africa/Asmara"),
  ("EE", "Europe/Tallinn"),
  ("SZ", "Africa/Mbabane"),
  ("ET", "Africa/Addis_Ababa"),
  ("FK", "Atlantic/Stanley"),
  ("FO", "Atlantic/Faroe"),
  ("FJ", "Pacific/Fiji"),
  ("FI", "Europe/Helsinki"),
  ("FR", "Europe/Paris"),
  ("GF", "America/Cayenne"),
  ("PF", "Pacific/Tahiti"),
  ("TF", "Indian/Kerguelen"),
  ("GA", "Africa/Libreville"),
  ("GM", "Africa/Banjul"),
  ("GE", "Asia/Tbilisi"),
  ("DE", "Europe/Berlin"),
  ("GH", "Africa/Accra"),
  ("GI", "Europe/Gibraltar"),
  ("GR", "Europe/Athens"),
  ("GL", "America/Godthab"),
  ("GD", "America/Grenada"),
  ("GP", "America/Guadeloupe"),
  ("GU", "Pacific/Guam"),
  ("GT", "America/Guatemala"),
  ("GG", "Europe/Guernsey"),
  ("GN", "Africa/Conakry"),
  ("GW", "Africa/Bissau"),
  ("GY", "America/Guyana"),
  ("HT", "America/Port-au-Prince"),
  ("HM", "Antarctica/McMurdo"),
  ("VA", "Europe/Vatican"),
  ("HN", "America/Tegucigalpa"),
  ("HK", "Asia/Hong_Kong"),
  ("HU", "Europe/Budapest"),
  ("IS", "Atlantic/Reykjavik"),
  ("IN", "Asia/Kolkata"),
  ("ID", "Asia/Jakarta"),
  ("IR", "Asia/Tehran"),
  ("IQ", "Asia/Baghdad"),
  ("IE", "Europe/Dublin"),
  ("IM", "Europe/Isle_of_Man"),
  ("IL", "Asia/Jerusalem"),
  ("IT", "Europe/Rome"),
  ("JM", "America/Jamaica"),
  ("JP", "Asia/Tokyo"),
  ("JE", "Europe/Jersey"),
  ("JO", "Asia/Amman"),
  ("KZ", "Asia/Almaty"),
  ("KE", "Africa/Nairobi"),
  ("KI", "Pacific/Tarawa"),
  ("KP", "Asia/Pyongyang"),
  ("KR", "Asia/Seoul"),
  ("KW", "Asia/Kuwait"),
  ("KG", "Asia/Bishkek"),
  ("LA", "Asia/Vientiane"),
  ("LV", "Europe/Riga"),
  ("LB", "Asia/Beirut"),
  ("LS", "Africa/Maseru"),
  ("LR", "Africa/Monrovia"),
  ("LY", "Africa/Tripoli"),
  ("LI", "Europe/Vaduz"),
  ("LT", "Europe/Vilnius"),
  ("LU", "Europe/Luxembourg"),
  ("MO", "Asia/Macau"),
  ("MG", "Indian/Antananarivo"),
  ("MW", "Africa/Blantyre"),
  ("MY", "Asia/Kuala_Lumpur"),
  ("MV", "Indian/Maldives"),
  ("ML", "Africa/Bamako"),
  ("MT", "Europe/Malta"),
  ("MH", "Pacific/Majuro"),
  ("MQ", "America/Martinique"),
  ("MR", "Africa/Nouakchott"),
  ("MU", "Indian/Mauritius"),
  ("YT", "Indian/Mayotte"),
  ("MX", "America/Mexico_City"),
  ("FM", "Pacific/Chuuk"),
  ("MD", "Europe/Chisinau"),
  ("MC", "Europe/Monaco"),
  ("MN", "Asia/Ulaanbaatar"),
  ("ME", "Europe/Podgorica"),
  ("MS", "America/Montserrat"),
  ("MA", "Africa/Casablanca"),
  ("MZ", "Africa/Maputo"),
  ("MM", "Asia/Yangon"),
  ("NA", "Africa/Windhoek"),
  ("NR", "Pacific/Nauru"),
  ("NP", "Asia/Kathmandu"),
  ("NL", "Europe/Amsterdam"),
  ("NC", "Pacific/Noumea"),
  ("NZ", "Pacific/Auckland"),
  ("NI", "America/Managua"),
  ("NE", "Africa/Niamey"),
  ("NG", "Africa/Lagos"),
  ("NU", "Pacific/Niue"),
  ("NF", "Pacific/Norfolk"),
  ("MK", "Europe/Skopje"),
  ("MP", "Pacific/Saipan"),
  ("NO", "Europe/Oslo"),
  ("OM", "Asia/Muscat"),
  ("PK", "Asia/Karachi"),
  ("PW", "Pacific/Palau"),
  ("PS", "Asia/Gaza"),
  ("PA", "America/Panama"),
  ("PG", "Pacific/Port_Moresby"),
  ("PY", "America/Asuncion"),
  ("PE", "America/Lima"),
  ("PH", "Asia/Manila"),
  ("PN", "Pacific/Pitcairn"),
  ("PL", "Europe/Warsaw"),
  ("PT", "Europe/Lisbon"),
  ("PR", "America/Puerto_Rico"),
  ("QA", "Asia/Qatar"),
  ("RE", "Indian/Reunion"),
  ("RO", "Europe/Bucharest"),
  ("RU", "Europe/Moscow"),
  ("RW", "Africa/Kigali"),
  ("BL", "America/St_Barthelemy"),
  ("SH", "Atlantic/St_Helena"),
  ("KN", "America/St_Kitts"),
  ("LC", "America/St_Lucia"),
  ("MF", "America/Marigot"),
  ("PM", "America/Miquelon"),
  ("VC", "America/St_Vincent"),
  ("WS", "Pacific/Apia"),
  ("SM", "Europe/San_Marino"),
  ("ST", "Africa/Sao_Tome"),
  ("SA", "Asia/Riyadh"),
  ("SN", "Africa/Dakar"),
  ("RS", "Europe/Belgrade"),
  ("SC", "Indian/Mahe"),
  ("SL", "Africa/Freetown"),
  ("SG", "Asia/Singapore"),
  ("SX", "America/Lower_Princes"),
  ("SK", "Europe/Bratislava"),
  ("SI", "Europe/Ljubljana"),
  ("SB", "Pacific/Guadalcanal"),
  ("SO", "Africa/Mogadishu"),
  ("ZA", "Africa/Johannesburg"),
  ("GS", "Atlantic/South_Georgia"),
  ("SS", "Africa/Juba"),
  ("ES", "Europe/Madrid"),
  ("LK", "Asia/Colombo"),
  ("SD", "Africa/Khartoum"),
  ("SR", "America/Paramaribo"),
  ("SJ", "Arctic/Longyearbyen"),
  ("SE", "Europe/Stockholm"),
  ("CH", "Europe/Zurich"),
  ("SY", "Asia/Damascus"),
  ("TW", "Asia/Taipei"),
  ("TJ", "Asia/Dushanbe"),
  ("TZ", "Africa/Dar_es_Salaam"),
  ("TH", "Asia/Bangkok"),
  ("TL", "Asia/Dili"),
  ("TG", "Africa/Lome"),
  ("TK", "Pacific/Fakaofo"),
  ("TO", "Pacific/Tongatapu"),
  ("TT", "America/Port_of_Spain"),
  ("TN", "Africa/Tunis"),
  ("TR", "Europe/Istanbul"),
  ("TM", "Asia/Ashgabat"),
  ("TC", "America/Grand_Turk"),
  ("TV", "Pacific/Funafuti"),
  ("UG", "Africa/Kampala"),
  ("UA", "Europe/Kiev"),
  ("AE", "Asia/Dubai"),
  ("GB", "Europe/London"),
  ("US", "America/New_York"),
  ("UM", "Pacific/Johnston"),
  ("UY", "America/Montevideo"),
  ("UZ", "Asia/Tashkent"),
  ("VU", "Pacific/Efate"),
  ("VE", "America/Caracas"),
  ("VN", "Asia/Ho_Chi_Minh"),
  ("VG", "America/Tortola"),
  ("VI", "America/St_Thomas"),
  ("WF", "Pacific/Wallis"),
  ("EH", "Africa/El_Aaiun"),
  ("YE", "Asia/Aden"),
  ("ZM", "Africa/Lusaka"),
  ("ZW", "Africa/Harare")
]

/-- Method `getTimezoneFromCountryCode`: table lookup on the
uppercased code, defaulting to "Unknown". -/
def getTimezoneFromCountryCode (countryCode : String) : String :=
  match countryTimezoneMap.lookup (toUpperString countryCode) with
  | some tz => tz
  | none => "Unknown"

/-- Method `timezoneToContinent` (src/lib/detectionEngine.ts lines
57-66): coarse continent from an IANA zone name by prefix; the empty
string (JavaScript falsy) and unrecognized prefixes give `null`.
Note the source maps every "America/..." zone to "North America". -/
def timezoneToContinent (timezone : String) : Option String :=
  if timezone == "" then none
  else if "Africa".data.isPrefixOf timezone.data then some "Africa"
  else if "America".data.isPrefixOf timezone.data then some "North America"
  else if "Europe".data.isPrefixOf timezone.data then some "Europe"
  else if "Asia".data.isPrefixOf timezone.data then some "Asia"
  else if "Australia".data.isPrefixOf timezone.data || "Pacific".data.isPrefixOf timezone.data then some "Oceania"
  else if "Antarctica".data.isPrefixOf timezone.data then some "Antarctica"
  else none

/-- Truthiness of an optional JavaScript string: `undefined` and the
empty string are falsy. -/
def jsStrFalsy : Option String → Bool
  | none => true
  | some s => s == ""

/-- The `ipTimezone` value after the backfill step of the fingerprint
block (src/lib/detectionEngine.ts lines 643-656): start from
`results.ipAnalysis?.timezone`; when that is falsy or the string
"Unknown" and a nonempty country text is available, extract a country
code and, if one was found, replace the timezone by the static
country-to-timezone lookup. -/
def resolvedIpTimezone (results : DetectionResults) : Option String :=
  let ipTimezone : Option String := results.ipAnalysis.bind fun ip => ip.timezone
  match results.ipAnalysis with
  | none => ipTimezone
  | some ip =>
    if (jsStrFalsy ipTimezone || ipTimezone == some "Unknown") && ip.country != "" then
      let countryCode := extractCountryCode ip.country
      if countryCode != "" then some (getTimezoneFromCountryCode countryCode) else ipTimezone
    else ipTimezone

/-- The country code the continent check computes
(src/lib/detectionEngine.ts lines 694-704): empty when `ipAnalysis`
or its country text is absent/falsy, otherwise the shared extraction. -/
def ipCountryCode (results : DetectionResults) : String :=
  match results.ipAnalysis with
  | none => ""
  | some ip => if ip.country == "" then "" else extractCountryCode ip.country

/-- Condition of the "Datacenter IP" row (the `isDatacenter` step of
the flag loop, src/lib/detectionEngine.ts lines 605-614). -/
def ipDatacenterFires (results : DetectionResults) : Bool :=
  match results.ipAnalysis with
  | none => false
  | some ip => ip.isDatacenter

/-- Condition of the "Hosting Provider" row. -/
def ipHostingFires (results : DetectionResults) : Bool :=
  match results.ipAnalysis with
  | none => false
  | some ip => ip.isHosting

/-- Condition of the "Tor Exit Node" row. -/
def ipTorFires (results : DetectionResults) : Bool :=
  match results.ipAnalysis with
  | none => false
  | some ip => ip.isTor

/-- Condition of the "VPN Server Detected" row. -/
def ipVpnDetectedFires (results : DetectionResults) : Bool :=
  match results.ipAnalysis with
  | none => false
  | some ip => ip.vpnDetected

/-- Condition of the "Blacklisted IP" row. -/
def ipBlacklistedFires (results : DetectionResults) : Bool :=
  match results.ipAnalysis with
  | none => false
  | some ip => ip.blacklisted

/-- Value added (doubled) by `riskScore * 0.5`
(src/lib/detectionEngine.ts line 613): zero when `ipAnalysis` is
absent or `riskScore` is not a number. -/
def riskScoreValue (results : DetectionResults) : Int :=
  match results.ipAnalysis with
  | none => 0
  | some ip => match ip.riskScore with
    | some r => r
    | none => 0

/-- Condition of the "WebRTC Leak" row
(src/lib/detectionEngine.ts line 617): `results.webrtcLeak?.hasLeak`. -/
def webrtcLeakFires (results : DetectionResults) : Bool :=
  match results.webrtcLeak with
  | none => false
  | some w => w.hasLeak

/-- Condition of the "WebRTC Relay Candidate Detected" row
(src/lib/detectionEngine.ts lines 623-630): inside the leak block,
`candidateTypes` present and containing "relay". -/
def webrtcRelayFires (results : DetectionResults) : Bool :=
  match results.webrtcLeak with
  | none => false
  | some w => w.hasLeak && (match w.candidateTypes with
      | none => false
      | some cts => cts.contains "relay")

/-- Condition of the "WebRTC Server Reflexive Candidate Detected" row
(src/lib/detectionEngine.ts lines 631-635). -/
def webrtcSrflxFires (results : DetectionResults) : Bool :=
  match results.webrtcLeak with
  | none => false
  | some w => w.hasLeak && (match w.candidateTypes with
      | none => false
      | some cts => cts.contains "srflx")

/-- Condition of the "Fingerprint Timezone Mismatch" row
(src/lib/detectionEngine.ts lines 662-666): fingerprint present, its
timezone differs from the resolved IP timezone, and neither side is
the string "Unknown".  An absent resolved timezone (`undefined`)
passes the `!== 'Unknown'` test and differs from every defined
fingerprint timezone. -/
def fingerprintTimezoneMismatchFires (results : DetectionResults) : Bool :=
  match results.fingerprint with
  | none => false
  | some fp =>
    let ipTimezone := resolvedIpTimezone results
    (some fp.timezone != ipTimezone) && (ipTimezone != some "Unknown")
      && (fp.timezone != "Unknown")

/-- Condition of the "Fingerprint Continent Mismatch" row
(src/lib/detectionEngine.ts lines 703-722): both continents resolve
(non-null, and continent names are nonempty so JavaScript truthiness
is non-nullness) and differ. -/
def fingerprintContinentMismatchFires (results : DetectionResults) : Bool :=
  match results.fingerprint with
  | none => false
  | some fp =>
    match timezoneToContinent fp.timezone, countryToContinent (ipCountryCode results) with
    | some fc, some ic => fc != ic
    | _, _ => false

/-- Value added (doubled) by `suspicionScore * 0.5`
(src/lib/detectionEngine.ts line 724): zero when the fingerprint is
absent or the score is not a number. -/
def suspicionScoreValue (results : DetectionResults) : Int :=
  match results.fingerprint with
  | none => 0
  | some fp => match fp.suspicionScore with
    | some s => s
    | none => 0

/-- Condition of the "Fingerprint Spoofed" row
(src/lib/detectionEngine.ts lines 658-737): the `fingerprintSpoofed`
flag is set inside the fingerprint block by the timezone-mismatch row,
the continent-mismatch row, or a suspicion score above 60. -/
def fingerprintSpoofedFires (results : DetectionResults) : Bool :=
  results.fingerprint.isSome
    && (fingerprintTimezoneMismatchFires results
        || fingerprintContinentMismatchFires results
        || decide (suspicionScoreValue results > 60))

/-- Condition of the "Location Mismatch" row
(src/lib/detectionEngine.ts lines 740-749):
`results.locationMismatch && results.locationMismatch.hasMismatch === true`. -/
def locationMismatchFires (results : DetectionResults) : Bool :=
  match results.locationMismatch with
  | none => false
  | some loc => loc.hasMismatch

/-- Condition of the "Bot/Automation" row
(src/lib/detectionEngine.ts lines 752-757): `results.botDetection?.isBot`. -/
def botDetectionFires (results : DetectionResults) : Bool :=
  match results.botDetection with
  | none => false
  | some b => b.isBot

/-- Risk-factor string of the "Location Mismatch" row:
`(results.locationMismatch as any).message || config.risk`, i.e. the
producer message when it is a truthy string, else the configured text. -/
def locationRiskFactor (results : DetectionResults) : String :=
  match results.locationMismatch with
  | none => "Location mismatch detected"
  | some loc => match loc.message with
    | some m => if m != "" then m else "Location mismatch detected"
    | none => "Location mismatch detected"

/-- Twice the raw `confidenceScore` accumulated by
`calculateOverallResult` before rounding and capping, one summand per
source if-block in source order.  Weights are doubled (half-point
units): source weights 40, 35, 50, 60, 40 for the IP flags, 10 for the
WebRTC leak, 10/5 for relay/srflx candidates, 50 for each fingerprint
mismatch, 10 for the spoofed-fingerprint row, 50 for location
mismatch, 45 for bot detection; the two continuous `* 0.5`
contributions become the raw values. -/
def confidenceScore2 (results : DetectionResults) : Int :=
  (if ipDatacenterFires results then 80 else 0)
  + (if ipHostingFires results then 70 else 0)
  + (if ipTorFires results then 100 else 0)
  + (if ipVpnDetectedFires results then 120 else 0)
  + (if ipBlacklistedFires results then 80 else 0)
  + riskScoreValue results
  + (if webrtcLeakFires results then 20 else 0)
  + (if webrtcRelayFires results then 20 else 0)
  + (if webrtcSrflxFires results then 10 else 0)
  + (if fingerprintTimezoneMismatchFires results then 100 else 0)
  + (if fingerprintContinentMismatchFires results then 100 else 0)
  + suspicionScoreValue results
  + (if fingerprintSpoofedFires results then 20 else 0)
  + (if locationMismatchFires results then 100 else 0)
  + (if botDetectionFires results then 90 else 0)

/-- The `detectedTypes` accumulator: one label per fired row, in
source evaluation order. -/
def detectedTypesOf (results : DetectionResults) : List String :=
  (if ipDatacenterFires results then ["Datacenter IP"] else [])
  ++ (if ipHostingFires results then ["Hosting Provider"] else [])
  ++ (if ipTorFires results then ["Tor Exit Node"] else [])
  ++ (if ipVpnDetectedFires results then ["VPN Server Detected"] else [])
  ++ (if ipBlacklistedFires results then ["Blacklisted IP"] else [])
  ++ (if webrtcLeakFires results then ["WebRTC Leak"] else [])
  ++ (if webrtcRelayFires results then ["WebRTC Relay Candidate Detected"] else [])
  ++ (if webrtcSrflxFires results then ["WebRTC Server Reflexive Candidate Detected"] else [])
  ++ (if fingerprintTimezoneMismatchFires results then ["Fingerprint Timezone Mismatch"] else [])
  ++ (if fingerprintContinentMismatchFires results then ["Fingerprint Continent Mismatch"] else [])
  ++ (if fingerprintSpoofedFires results then ["Fingerprint Spoofed"] else [])
  ++ (if locationMismatchFires results then ["Location Mismatch"] else [])
  ++ (if botDetectionFires results then ["Bot/Automation"] else [])

/-- The `riskFactors` accumulator: one explanatory string per fired
row, parallel to `detectedTypesOf`. -/
def riskFactorsOf (results : DetectionResults) : List String :=
  (if ipDatacenterFires results then ["IP hosted in datacenter"] else [])
  ++ (if ipHostingFires results then ["Hosting provider IP"] else [])
  ++ (if ipTorFires results then ["Tor network detected"] else [])
  ++ (if ipVpnDetectedFires results then ["IP identified as VPN server by WhatIsMyIpAddress"] else [])
  ++ (if ipBlacklistedFires results then ["IP listed on blacklist by WhatIsMyIpAddress"] else [])
  ++ (if webrtcLeakFires results then ["Local IP leak detected"] else [])
  ++ (if webrtcRelayFires results then ["Presence of relay ICE candidates indicates possible VPN or proxy usage"] else [])
  ++ (if webrtcSrflxFires results then ["Presence of server reflexive ICE candidates indicates NAT traversal"] else [])
  ++ (if fingerprintTimezoneMismatchFires results then ["Mismatch between browser fingerprint timezone and IP location timezone"] else [])
  ++ (if fingerprintContinentMismatchFires results then ["Mismatch between browser fingerprint continent and IP location continent"] else [])
  ++ (if fingerprintSpoofedFires results then ["Browser fingerprint data appears spoofed or inconsistent"] else [])
  ++ (if locationMismatchFires results then [locationRiskFactor results] else [])
  ++ (if botDetectionFires results then ["Automated browser detected"] else [])

/-- Method `calculateOverallResult` (src/lib/detectionEngine.ts lines
579-796): accumulate the score and the two lists, then
`confidenceScore = Math.min(100, Math.round(confidenceScore))` (in
half-point units: `(n + 1) / 2` with flooring division) and
`isVpnDetected = confidenceScore >= 50`.  The `fingerprintMismatch` /
critical-flag block of the source (lines 763-787) only feeds a
`console.log` and does not affect the returned verdict. -/
def calculateOverallResult (results : DetectionResults) : DetectionResult :=
  let confidenceScore : Int := min 100 ((confidenceScore2 results + 1) / 2)
  { isVpnDetected := decide (confidenceScore ≥ 50)
    confidenceScore := confidenceScore
    detectedTypes := detectedTypesOf results
    riskFactors := riskFactorsOf results }

/-- The doubled score with the "Fingerprint Timezone Mismatch" summand
removed, used to state that this row adds exactly 50 points. -/
def confidenceScore2SansTimezoneRow (results : DetectionResults) : Int :=
  (if ipDatacenterFires results then 80 else 0)
  + (if ipHostingFires results then 70 else 0)
  + (if ipTorFires results then 100 else 0)
  + (if ipVpnDetectedFires results then 120 else 0)
  + (if ipBlacklistedFires results then 80 else 0)
  + riskScoreValue results
  + (if webrtcLeakFires results then 20 else 0)
  + (if webrtcRelayFires results then 20 else 0)
  + (if webrtcSrflxFires results then 10 else 0)
  + (if fingerprintContinentMismatchFires results then 100 else 0)
  + suspicionScoreValue results
  + (if fingerprintSpoofedFires results then 20 else 0)
  + (if locationMismatchFires results then 100 else 0)
  + (if botDetectionFires results then 90 else 0)

/-- The doubled score with the "Fingerprint Spoofed" summand removed,
used to state that this row adds exactly 10 points. -/
def confidenceScore2SansSpoofedRow (results : DetectionResults) : Int :=
  (if ipDatacenterFires results then 80 else 0)
  + (if ipHostingFires results then 70 else 0)
  + (if ipTorFires results then 100 else 0)
  + (if ipVpnDetectedFires results then 120 else 0)
  + (if ipBlacklistedFires results then 80 else 0)
  + riskScoreValue results
  + (if webrtcLeakFires results then 20 else 0)
  + (if webrtcRelayFires results then 20 else 0)
  + (if webrtcSrflxFires results then 10 else 0)
  + (if fingerprintTimezoneMismatchFires results then 100 else 0)
  + (if fingerprintContinentMismatchFires results then 100 else 0)
  + suspicionScoreValue results
  + (if locationMismatchFires results then 100 else 0)
  + (if botDetectionFires results then 90 else 0)

/-- The doubled score with the "WebRTC Leak" summand removed, used to
state that this row adds exactly 10 points. -/
def confidenceScore2SansWebrtcRow (results : DetectionResults) : Int :=
  (if ipDatacenterFires results then 80 else 0)
  + (if ipHostingFires results then 70 else 0)
  + (if ipTorFires results then 100 else 0)
  + (if ipVpnDetectedFires results then 120 else 0)
  + (if ipBlacklistedFires results then 80 else 0)
  + riskScoreValue results
  + (if webrtcRelayFires results then 20 else 0)
  + (if webrtcSrflxFires results then 10 else 0)
  + (if fingerprintTimezoneMismatchFires results then 100 else 0)
  + (if fingerprintContinentMismatchFires results then 100 else 0)
  + suspicionScoreValue results
  + (if fingerprintSpoofedFires results then 20 else 0)
  + (if locationMismatchFires results then 100 else 0)
  + (if botDetectionFires results then 90 else 0)

/-- Remove the `candidateTypes` data from the WebRTC evidence, keeping
everything else: used to state that the relay/srflx rows are the only
effect of `candidateTypes`. -/
def stripCandidateTypes (results : DetectionResults) : DetectionResults :=
  { results with webrtcLeak := results.webrtcLeak.map fun w => { w with candidateTypes := none } }

/-- The eight boolean evidence flags of the bundle. -/
inductive EvidenceFlag where
  | isDatacenter
  | isHosting
  | isTor
  | vpnDetected
  | blacklisted
  | hasLeak
  | hasMismatch
  | isBot
deriving Repr, DecidableEq

/-- Set one boolean evidence flag to `true`, keeping every other field
fixed.  When the sub-record carrying the flag is absent the bundle is
unchanged (the flag does not exist to be set). -/
def setFlag (f : EvidenceFlag) (results : DetectionResults) : DetectionResults :=
  match f with
  | .isDatacenter =>
    { results with ipAnalysis := results.ipAnalysis.map fun ip => { ip with isDatacenter := true } }
  | .isHosting =>
    { results with ipAnalysis := results.ipAnalysis.map fun ip => { ip with isHosting := true } }
  | .isTor =>
    { results with ipAnalysis := results.ipAnalysis.map fun ip => { ip with isTor := true } }
  | .vpnDetected =>
    { results with ipAnalysis := results.ipAnalysis.map fun ip => { ip with vpnDetected := true } }
  | .blacklisted =>
    { results with ipAnalysis := results.ipAnalysis.map fun ip => { ip with blacklisted := true } }
  | .hasLeak =>
    { results with webrtcLeak := results.webrtcLeak.map fun w => { w with hasLeak := true } }
  | .hasMismatch =>
    { results with locationMismatch := results.locationMismatch.map fun loc => { loc with hasMismatch := true } }
  | .isBot =>
    { results with botDetection := results.botDetection.map fun b => { b with isBot := true } }

/-- Neutral IP evidence: all flags false, risk score 0 (or not a
number), no usable timezone, country the "Unknown" sentinel the
orchestrator substitutes on total resolver failure (matching the
neutral mock of test/detectionEngine.test.ts). -/
def NeutralIpAnalysis (ip : IpAnalysisResult) : Prop :=
  ip.isDatacenter = false ∧ ip.isHosting = false ∧ ip.isTor = false
    ∧ ip.vpnDetected = false ∧ ip.blacklisted = false
    ∧ (ip.riskScore = some 0 ∨ ip.riskScore = none)
    ∧ (ip.timezone = some "Unknown" ∨ ip.timezone = none)
    ∧ ip.country = "Unknown"

/-- Neutral WebRTC evidence: no leak. -/
def NeutralWebrtcLeak (w : WebRTCLeakResult) : Prop := w.hasLeak = false

/-- Neutral fingerprint evidence: unknown timezone, suspicion score 0
(or not a number), matching the neutral mock of
test/detectionEngine.test.ts. -/
def NeutralFingerprint (fp : FingerprintResult) : Prop :=
  fp.timezone = "Unknown" ∧ (fp.suspicionScore = some 0 ∨ fp.suspicionScore = none)

/-- Neutral location evidence: no mismatch. -/
def NeutralLocationMismatch (loc : LocationMismatchResult) : Prop := loc.hasMismatch = false

/-- Neutral bot evidence: not a bot. -/
def NeutralBotDetection (b : BotDetectionResult) : Prop := b.isBot = false

/-- A sub-record is absent or neutral. -/
def AbsentOrNeutral {α : Type} (P : α → Prop) : Option α → Prop
  | none => True
  | some x => P x

/-- The neutral IP evidence record used by the no-flag test of
test/detectionEngine.test.ts. -/
def neutralIpRecord : IpAnalysisResult :=
  { country := "Unknown", timezone := some "Unknown",
    isDatacenter := false, isHosting := false, isTor := false,
    vpnDetected := false, blacklisted := false, riskScore := some 0 }

/-- The neutral WebRTC evidence record (no leak). -/
def neutralWebrtcRecord : WebRTCLeakResult :=
  { hasLeak := false, localIps := [], localIpCountry := none, candidateTypes := none }

/-- The neutral fingerprint evidence record used by the no-flag test of
test/detectionEngine.test.ts. -/
def neutralFingerprintRecord : FingerprintResult :=
  { timezone := "Unknown", suspicionScore := some 0 }

/-- Bundle exercising the decision boundary: a bot flag alone scores
45, just below the threshold. -/
def c1WitnessBundle : DetectionResults :=
  { botDetection := some { isBot := true } }

/-- Malformed bundle with a negative risk score and everything else
neutral. -/
def c2CounterBundle : DetectionResults :=
  { ipAnalysis := some { neutralIpRecord with riskScore := some (-10) } }

/-- Well-formed bundle: datacenter flag plus risk score 30. -/
def c2WitnessBundle : DetectionResults :=
  { ipAnalysis := some { neutralIpRecord with isDatacenter := true, riskScore := some 30 } }

/-- Bundle with only a location mismatch, every other sub-record absent. -/
def c3CounterBundle : DetectionResults :=
  { locationMismatch := some { hasMismatch := true, message := none } }

/-- Bundle with a location mismatch and every other sub-record present
but neutral. -/
def c3WitnessBundle : DetectionResults :=
  { ipAnalysis := some neutralIpRecord
    webrtcLeak := some neutralWebrtcRecord
    fingerprint := some neutralFingerprintRecord
    locationMismatch := some { hasMismatch := true, message := some "Country mismatch detected" }
    botDetection := some { isBot := false } }

/-- Bundle with a known fingerprint timezone and `ipAnalysis` entirely
absent. -/
def c4CounterBundle : DetectionResults :=
  { fingerprint := some { timezone := "America/New_York", suspicionScore := some 0 } }

/-- Bundle with a fingerprint timezone differing from a known IP
timezone. -/
def c4WitnessBundle : DetectionResults :=
  { ipAnalysis := some { neutralIpRecord with timezone := some "Europe/London" }
    fingerprint := some { timezone := "America/New_York", suspicionScore := some 0 } }

/-- Bundle with only a WebRTC leak, no candidate-type data. -/
def c5CounterBundle : DetectionResults :=
  { webrtcLeak := some { hasLeak := true, localIps := [], localIpCountry := none, candidateTypes := none } }

/-- Bundle satisfying the claimed local-IP country-mismatch condition:
leak with a private local candidate whose inferred country (Germany)
differs from the public IP country (United States). -/
def c6CounterBundle : DetectionResults :=
  { ipAnalysis := some { neutralIpRecord with country := "United States US", timezone := some "America/New_York" }
    webrtcLeak := some { hasLeak := true, localIps := ["192.168.1.5"], localIpCountry := some "Germany", candidateTypes := none } }

/-- Bundle with every sub-record present and neutral. -/
def c7WitnessBundle : DetectionResults :=
  { ipAnalysis := some neutralIpRecord
    webrtcLeak := some neutralWebrtcRecord
    fingerprint := some neutralFingerprintRecord
    locationMismatch := some { hasMismatch := false, message := none }
    botDetection := some { isBot := false } }

/-- Bundle with a present location record whose flag is off. -/
def c8WitnessBundle : DetectionResults :=
  { ipAnalysis := some { neutralIpRecord with riskScore := some 20 }
    locationMismatch := some { hasMismatch := false, message := none } }

/-- Bundle with a leak and relay plus srflx candidates. -/
def c9WitnessBundle : DetectionResults :=
  { webrtcLeak := some { hasLeak := true, localIps := ["10.0.0.2"], localIpCountry := none, candidateTypes := some ["host", "srflx", "relay"] } }

/-- Bundle with candidate data but no leak. -/
def c9WitnessBundleNoLeak : DetectionResults :=
  { webrtcLeak := some { hasLeak := false, localIps := [], localIpCountry := none, candidateTypes := some ["relay"] } }

/-- Bundle whose fingerprint suspicion score exceeds 60. -/
def c10WitnessBundle : DetectionResults :=
  { fingerprint := some { timezone := "Europe/Berlin", suspicionScore := some 80 } }

/-- Membership in a conditional singleton list. -/
theorem mem_ite_singleton {p : Prop} [Decidable p] {l s : String} :
    (s ∈ if p then [l] else []) ↔ p ∧ s = l := by
  split <;> simp_all

/-- Count of a conditional singleton list. -/
theorem count_ite_singleton {p : Prop} [Decidable p] {l s : String} :
    (if p then [l] else []).count s = if p ∧ l = s then 1 else 0 := by
  split <;> simp_all [List.count_cons]

/-- Exhaustive characterization of membership in the detected-types
list: a string occurs exactly when one of the thirteen rows fires with
that label. -/
theorem mem_detectedTypesOf {results : DetectionResults} {s : String} :
    s ∈ detectedTypesOf results ↔
      (ipDatacenterFires results ∧ s = "Datacenter IP")
      ∨ (ipHostingFires results ∧ s = "Hosting Provider")
      ∨ (ipTorFires results ∧ s = "Tor Exit Node")
      ∨ (ipVpnDetectedFires results ∧ s = "VPN Server Detected")
      ∨ (ipBlacklistedFires results ∧ s = "Blacklisted IP")
      ∨ (webrtcLeakFires results ∧ s = "WebRTC Leak")
      ∨ (webrtcRelayFires results ∧ s = "WebRTC Relay Candidate Detected")
      ∨ (webrtcSrflxFires results ∧ s = "WebRTC Server Reflexive Candidate Detected")
      ∨ (fingerprintTimezoneMismatchFires results ∧ s = "Fingerprint Timezone Mismatch")
      ∨ (fingerprintContinentMismatchFires results ∧ s = "Fingerprint Continent Mismatch")
      ∨ (fingerprintSpoofedFires results ∧ s = "Fingerprint Spoofed")
      ∨ (locationMismatchFires results ∧ s = "Location Mismatch")
      ∨ (botDetectionFires results ∧ s = "Bot/Automation") := by
  simp [detectedTypesOf, mem_ite_singleton, or_assoc]

/-- Conditional summand with a nonnegative branch is nonnegative. -/
theorem ite_nonneg_helper {p : Prop} [Decidable p] {k : Int} (hk : 0 ≤ k) :
    0 ≤ if p then k else 0 := by split <;> simp [hk]

/-- Neutral IP evidence contributes no risk-score points. -/
theorem riskScoreValue_of_neutral {results : DetectionResults}
    (h : AbsentOrNeutral NeutralIpAnalysis results.ipAnalysis) :
    riskScoreValue results = 0 := by
  cases hip : results.ipAnalysis with
  | none => simp [riskScoreValue, hip]
  | some ip =>
    rw [hip] at h
    rcases h.2.2.2.2.2.1 with hr | hr <;> simp [riskScoreValue, hip, hr]

/-- A neutral fingerprint (timezone "Unknown") never fires the
timezone-mismatch row. -/
theorem tzMismatch_of_neutral_fp {results : DetectionResults}
    (h : AbsentOrNeutral NeutralFingerprint results.fingerprint) :
    fingerprintTimezoneMismatchFires results = false := by
  cases hfp : results.fingerprint with
  | none => simp [fingerprintTimezoneMismatchFires, hfp]
  | some fp =>
    rw [hfp] at h
    simp [fingerprintTimezoneMismatchFires, hfp, h.1]

/-- A neutral fingerprint never fires the continent-mismatch row. -/
theorem contMismatch_of_neutral_fp {results : DetectionResults}
    (h : AbsentOrNeutral NeutralFingerprint results.fingerprint) :
    fingerprintContinentMismatchFires results = false := by
  cases hfp : results.fingerprint with
  | none => simp [fingerprintContinentMismatchFires, hfp]
  | some fp =>
    rw [hfp] at h
    have : timezoneToContinent "Unknown" = none := by decide
    simp [fingerprintContinentMismatchFires, hfp, h.1, this]

/-- A neutral fingerprint contributes no suspicion points. -/
theorem suspicion_of_neutral_fp {results : DetectionResults}
    (h : AbsentOrNeutral NeutralFingerprint results.fingerprint) :
    suspicionScoreValue results = 0 := by
  cases hfp : results.fingerprint with
  | none => simp [suspicionScoreValue, hfp]
  | some fp =>
    rw [hfp] at h
    rcases h.2 with hs | hs <;> simp [suspicionScoreValue, hfp, hs]

/-- A neutral fingerprint never fires the spoofed-fingerprint row. -/
theorem spoofed_of_neutral_fp {results : DetectionResults}
    (h : AbsentOrNeutral NeutralFingerprint results.fingerprint) :
    fingerprintSpoofedFires results = false := by
  simp [fingerprintSpoofedFires, tzMismatch_of_neutral_fp h, contMismatch_of_neutral_fp h,
    suspicion_of_neutral_fp h]

/-- Replacing the IP record by one with the same country and timezone
leaves the resolved IP timezone unchanged. -/
theorem resolved_tz_ip_update {results : DetectionResults} {ip ip2 : IpAnalysisResult}
    (h : results.ipAnalysis = some ip)
    (hc : ip2.country = ip.country) (ht : ip2.timezone = ip.timezone) :
    resolvedIpTimezone { results with ipAnalysis := some ip2 } = resolvedIpTimezone results := by
  simp [resolvedIpTimezone, h, hc, ht]

/-- Projections of the candidate-stripped bundle. -/
theorem strip_fingerprint_proj (results : DetectionResults) :
    (stripCandidateTypes results).fingerprint = results.fingerprint := by
  simp [stripCandidateTypes]

/-- Stripping candidate types leaves the resolved IP timezone unchanged. -/
theorem strip_resolvedIpTimezone (results : DetectionResults) :
    resolvedIpTimezone (stripCandidateTypes results) = resolvedIpTimezone results := by
  simp [stripCandidateTypes, resolvedIpTimezone]

/-- Stripping candidate types leaves the extracted country code unchanged. -/
theorem strip_ipCountryCode (results : DetectionResults) :
    ipCountryCode (stripCandidateTypes results) = ipCountryCode results := by
  simp [stripCandidateTypes, ipCountryCode]

/-- Stripping candidate types preserves the leak flag. -/
theorem strip_webrtcLeakFires (results : DetectionResults) :
    webrtcLeakFires (stripCandidateTypes results) = webrtcLeakFires results := by
  cases h : results.webrtcLeak <;> simp [stripCandidateTypes, webrtcLeakFires, h]

/-- Without candidate data the relay row cannot fire. -/
theorem strip_webrtcRelayFires (results : DetectionResults) :
    webrtcRelayFires (stripCandidateTypes results) = false := by
  cases h : results.webrtcLeak <;> simp [stripCandidateTypes, webrtcRelayFires, h]

/-- Without candidate data the srflx row cannot fire. -/
theorem strip_webrtcSrflxFires (results : DetectionResults) :
    webrtcSrflxFires (stripCandidateTypes results) = false := by
  cases h : results.webrtcLeak <;> simp [stripCandidateTypes, webrtcSrflxFires, h]

/-- Stripping candidate types preserves the timezone-mismatch row. -/
theorem strip_tzFires (results : DetectionResults) :
    fingerprintTimezoneMismatchFires (stripCandidateTypes results)
      = fingerprintTimezoneMismatchFires results := by
  simp only [fingerprintTimezoneMismatchFires, strip_fingerprint_proj, strip_resolvedIpTimezone]

/-- Stripping candidate types preserves the continent-mismatch row. -/
theorem strip_contFires (results : DetectionResults) :
    fingerprintContinentMismatchFires (stripCandidateTypes results)
      = fingerprintContinentMismatchFires results := by
  simp only [fingerprintContinentMismatchFires, strip_ipCountryCode]
  simp [stripCandidateTypes]

/-- Stripping candidate types preserves the suspicion contribution. -/
theorem strip_suspicion (results : DetectionResults) :
    suspicionScoreValue (stripCandidateTypes results) = suspicionScoreValue results := by
  simp [suspicionScoreValue, stripCandidateTypes]

/-- Stripping candidate types preserves the spoofed-fingerprint row. -/
theorem strip_spoofedFires (results : DetectionResults) :
    fingerprintSpoofedFires (stripCandidateTypes results) = fingerprintSpoofedFires results := by
  simp only [fingerprintSpoofedFires, strip_fingerprint_proj, strip_tzFires, strip_contFires,
    strip_suspicion]

/-- Stripping candidate types preserves every row that does not read
them. -/
theorem strip_score_parts (results : DetectionResults) :
    ipDatacenterFires (stripCandidateTypes results) = ipDatacenterFires results
    ∧ ipHostingFires (stripCandidateTypes results) = ipHostingFires results
    ∧ ipTorFires (stripCandidateTypes results) = ipTorFires results
    ∧ ipVpnDetectedFires (stripCandidateTypes results) = ipVpnDetectedFires results
    ∧ ipBlacklistedFires (stripCandidateTypes results) = ipBlacklistedFires results
    ∧ riskScoreValue (stripCandidateTypes results) = riskScoreValue results
    ∧ locationMismatchFires (stripCandidateTypes results) = locationMismatchFires results
    ∧ botDetectionFires (stripCandidateTypes results) = botDetectionFires results
    ∧ locationRiskFactor (stripCandidateTypes results) = locationRiskFactor results := by
  refine ⟨?_, ?_, ?_, ?_, ?_, ?_, ?_, ?_, ?_⟩ <;>
    simp [stripCandidateTypes, ipDatacenterFires, ipHostingFires, ipTorFires,
      ipVpnDetectedFires, ipBlacklistedFires, riskScoreValue, locationMismatchFires,
      botDetectionFires, locationRiskFactor]

/-- C1: for every EvidenceBundle, the Verdict returned by
`calculateOverallResult` has `isVpnDetected = true` exactly when
`confidenceScore >= 50`; no critical flag or any other condition
overrides the threshold (the source's critical-flag block only feeds a
log statement). -/
theorem c1_pure_threshold (results : DetectionResults) :
    (calculateOverallResult results).isVpnDetected = true ↔
      50 ≤ (calculateOverallResult results).confidenceScore := by
  simp [calculateOverallResult]

/-- Witness: the threshold equivalence at a concrete bundle scoring 45
(a bot flag alone), which is not detected. -/
theorem c1_pure_threshold_witness :
    (calculateOverallResult c1WitnessBundle).isVpnDetected = true ↔
      50 ≤ (calculateOverallResult c1WitnessBundle).confidenceScore :=
  c1_pure_threshold c1WitnessBundle

/-- C2 counterexample: on a malformed bundle whose `riskScore` is -10
and everything else neutral, the returned confidence score is -5,
below 0: the engine caps only the upper end
(`Math.min(100, Math.round(score))`), so the claimed lower clamp does
not exist. -/
theorem c2_clamping_counterexample :
    (calculateOverallResult c2CounterBundle).confidenceScore = -5
      ∧ (calculateOverallResult c2CounterBundle).confidenceScore < 0 := by decide

/-- C2 amended: the engine never throws and always caps the score at
100; the score is additionally nonnegative whenever the two continuous
inputs (risk score and suspicion score) are nonnegative or absent, but
a negative malformed risk or suspicion score propagates below 0. -/
theorem c2_clamping_amended (results : DetectionResults)
    (hrisk : 0 ≤ riskScoreValue results) (hsusp : 0 ≤ suspicionScoreValue results) :
    0 ≤ (calculateOverallResult results).confidenceScore
      ∧ (calculateOverallResult results).confidenceScore ≤ 100 := by
  have h2 : 0 ≤ confidenceScore2 results := by
    unfold confidenceScore2
    repeat
      first
      | assumption
      | apply add_nonneg
      | exact ite_nonneg_helper (by norm_num)
  constructor
  · simp only [calculateOverallResult]
    apply le_min (by norm_num)
    exact Int.ediv_nonneg (by omega) (by norm_num)
  · simp only [calculateOverallResult]
    exact min_le_left _ _

/-- Witness: the amended bounds at a concrete well-formed bundle
(datacenter flag plus risk score 30). -/
theorem c2_clamping_amended_witness :
    0 ≤ (calculateOverallResult c2WitnessBundle).confidenceScore
      ∧ (calculateOverallResult c2WitnessBundle).confidenceScore ≤ 100 :=
  c2_clamping_amended c2WitnessBundle (by decide) (by decide)

/-- C3 counterexample: a bundle with only a location mismatch does not
produce the claimed score 40 with no detection: the location-mismatch
weight in the live engine is 50, which reaches the threshold. -/
theorem c3_location_only_counterexample :
    ¬((calculateOverallResult c3CounterBundle).confidenceScore = 40
        ∧ (calculateOverallResult c3CounterBundle).isVpnDetected = false) := by decide

/-- C3 amended: a location mismatch with every other signal absent or
neutral yields confidence score 50 and a positive detection (the row
weighs 50, not 40, and 50 meets the threshold). -/
theorem c3_location_only_amended (results : DetectionResults)
    (hip : AbsentOrNeutral NeutralIpAnalysis results.ipAnalysis)
    (hweb : AbsentOrNeutral NeutralWebrtcLeak results.webrtcLeak)
    (hfp : AbsentOrNeutral NeutralFingerprint results.fingerprint)
    (hbot : AbsentOrNeutral NeutralBotDetection results.botDetection)
    (loc : LocationMismatchResult)
    (hloc : results.locationMismatch = some loc) (hmis : loc.hasMismatch = true) :
    (calculateOverallResult results).confidenceScore = 50
      ∧ (calculateOverallResult results).isVpnDetected = true := by
  have h1 : ipDatacenterFires results = false := by
    cases h : results.ipAnalysis with
    | none => simp [ipDatacenterFires, h]
    | some ip => rw [h] at hip; simp [ipDatacenterFires, h, hip.1]
  have h2 : ipHostingFires results = false := by
    cases h : results.ipAnalysis with
    | none => simp [ipHostingFires, h]
    | some ip => rw [h] at hip; simp [ipHostingFires, h, hip.2.1]
  have h3 : ipTorFires results = false := by
    cases h : results.ipAnalysis with
    | none => simp [ipTorFires, h]
    | some ip => rw [h] at hip; simp [ipTorFires, h, hip.2.2.1]
  have h4 : ipVpnDetectedFires results = false := by
    cases h : results.ipAnalysis with
    | none => simp [ipVpnDetectedFires, h]
    | some ip => rw [h] at hip; simp [ipVpnDetectedFires, h, hip.2.2.2.1]
  have h5 : ipBlacklistedFires results = false := by
    cases h : results.ipAnalysis with
    | none => simp [ipBlacklistedFires, h]
    | some ip => rw [h] at hip; simp [ipBlacklistedFires, h, hip.2.2.2.2.1]
  have h6 : webrtcLeakFires results = false := by
    cases h : results.webrtcLeak with
    | none => simp [webrtcLeakFires, h]
    | some w => rw [h] at hweb; simp [webrtcLeakFires, h, show w.hasLeak = false from hweb]
  have h7 : webrtcRelayFires results = false := by
    cases h : results.webrtcLeak with
    | none => simp [webrtcRelayFires, h]
    | some w => rw [h] at hweb; simp [webrtcRelayFires, h, show w.hasLeak = false from hweb]
  have h8 : webrtcSrflxFires results = false := by
    cases h : results.webrtcLeak with
    | none => simp [webrtcSrflxFires, h]
    | some w => rw [h] at hweb; simp [webrtcSrflxFires, h, show w.hasLeak = false from hweb]
  have h9 : locationMismatchFires results = true := by
    simp [locationMismatchFires, hloc, hmis]
  have h10 : botDetectionFires results = false := by
    cases h : results.botDetection with
    | none => simp [botDetectionFires, h]
    | some b => rw [h] at hbot; simp [botDetectionFires, h, show b.isBot = false from hbot]
  have hscore : confidenceScore2 results = 100 := by
    simp [confidenceScore2, h1, h2, h3, h4, h5, h6, h7, h8, h9, h10,
      tzMismatch_of_neutral_fp hfp, contMismatch_of_neutral_fp hfp, spoofed_of_neutral_fp hfp,
      riskScoreValue_of_neutral hip, suspicion_of_neutral_fp hfp]
  simp [calculateOverallResult, hscore]

/-- Witness: the amended scenario at a concrete bundle where every
other sub-record is present and neutral. -/
theorem c3_location_only_amended_witness :
    (calculateOverallResult c3WitnessBundle).confidenceScore = 50
      ∧ (calculateOverallResult c3WitnessBundle).isVpnDetected = true :=
  c3_location_only_amended c3WitnessBundle
    ⟨rfl, rfl, rfl, rfl, rfl, Or.inl rfl, Or.inl rfl, rfl⟩
    rfl
    ⟨rfl, Or.inl rfl⟩
    rfl
    { hasMismatch := true, message := some "Country mismatch detected" }
    rfl rfl

/-- C4 counterexample: with `ipAnalysis` entirely absent and a
fingerprint timezone of "America/New_York", the timezone-mismatch row
DOES fire (the JavaScript condition tests `ipTimezone !== 'Unknown'`,
which an undefined timezone passes), and the total score is 60 = 50
(row weight, not the claimed 20) + 10 (spoofed-fingerprint row). -/
theorem c4_timezone_row_counterexample :
    c4CounterBundle.ipAnalysis = none
      ∧ "Fingerprint Timezone Mismatch" ∈ (calculateOverallResult c4CounterBundle).detectedTypes
      ∧ (calculateOverallResult c4CounterBundle).confidenceScore = 60 := by decide

/-- C4 amended: the timezone-mismatch row appends its label exactly
once and adds exactly 50 points (100 half-points), and it fires
exactly when the fingerprint is present, its timezone is not
"Unknown", the resolved IP timezone is not the string "Unknown", and
the two differ - where an absent resolved IP timezone (in particular
a missing `ipAnalysis`) counts as differing from every fingerprint
timezone rather than suppressing the row. -/
theorem c4_timezone_row_amended (results : DetectionResults) :
    ((calculateOverallResult results).detectedTypes.count "Fingerprint Timezone Mismatch"
        = if fingerprintTimezoneMismatchFires results then 1 else 0)
    ∧ (fingerprintTimezoneMismatchFires results = true ↔
        ∃ fp, results.fingerprint = some fp ∧ fp.timezone ≠ "Unknown"
          ∧ resolvedIpTimezone results ≠ some "Unknown"
          ∧ some fp.timezone ≠ resolvedIpTimezone results)
    ∧ (confidenceScore2 results
        = confidenceScore2SansTimezoneRow results
          + (if fingerprintTimezoneMismatchFires results then 100 else 0)) := by
  refine ⟨?_, ?_, ?_⟩
  · simp [calculateOverallResult, detectedTypesOf, List.count_append, count_ite_singleton]
  · cases h : results.fingerprint with
    | none => simp [fingerprintTimezoneMismatchFires, h]
    | some fp => simp [fingerprintTimezoneMismatchFires, h, and_comm, and_assoc]
  · unfold confidenceScore2 confidenceScore2SansTimezoneRow
    ring

/-- Witness: the amended row characterization at a concrete bundle
with both timezones known and unequal. -/
theorem c4_timezone_row_amended_witness :
    (calculateOverallResult c4WitnessBundle).detectedTypes.count "Fingerprint Timezone Mismatch"
      = if fingerprintTimezoneMismatchFires c4WitnessBundle then 1 else 0 :=
  (c4_timezone_row_amended c4WitnessBundle).1

/-- C5 counterexample: a bundle with only a WebRTC leak scores 10, not
the claimed 35 (the live engine weighs the leak row at 10). -/
theorem c5_webrtc_leak_counterexample :
    (calculateOverallResult c5CounterBundle).confidenceScore = 10
      ∧ (calculateOverallResult c5CounterBundle).confidenceScore ≠ 35 := by decide

/-- C5 amended: for every EvidenceBundle with `webrtcLeak.hasLeak =
true` the leak row appends the label "WebRTC Leak" exactly once and
adds exactly 10 points (20 half-points), not 35. -/
theorem c5_webrtc_leak_amended (results : DetectionResults) :
    ((calculateOverallResult results).detectedTypes.count "WebRTC Leak"
        = if webrtcLeakFires results then 1 else 0)
    ∧ (webrtcLeakFires results = true ↔ ∃ w, results.webrtcLeak = some w ∧ w.hasLeak = true)
    ∧ (confidenceScore2 results
        = confidenceScore2SansWebrtcRow results + (if webrtcLeakFires results then 20 else 0)) := by
  refine ⟨?_, ?_, ?_⟩
  · simp [calculateOverallResult, detectedTypesOf, List.count_append, count_ite_singleton]
  · cases h : results.webrtcLeak with
    | none => simp [webrtcLeakFires, h]
    | some w => simp [webrtcLeakFires, h]
  · unfold confidenceScore2 confidenceScore2SansWebrtcRow
    ring

/-- Witness: the amended leak row at a concrete leaking bundle. -/
theorem c5_webrtc_leak_amended_witness :
    (calculateOverallResult c5CounterBundle).detectedTypes.count "WebRTC Leak"
      = if webrtcLeakFires c5CounterBundle then 1 else 0 :=
  (c5_webrtc_leak_amended c5CounterBundle).1

/-- C6 counterexample: on a bundle satisfying the claimed condition
(leak present, private local candidate 192.168.1.5 with inferred
country Germany, public IP country United States) the live engine
emits no "WebRTC Local IP Country Mismatch" label and adds no 40
points: the total is the 10 points of the leak row alone. -/
theorem c6_local_ip_country_counterexample :
    "WebRTC Local IP Country Mismatch" ∉ (calculateOverallResult c6CounterBundle).detectedTypes
      ∧ (calculateOverallResult c6CounterBundle).confidenceScore = 10 := by decide

/-- C6 amended: the live engine has no local-IP country-mismatch row
at all (its `isPrivateIp` helper is dead code, and the row exists only
in a historical variant of the engine): the label
"WebRTC Local IP Country Mismatch" never appears in any verdict. -/
theorem c6_local_ip_country_amended (results : DetectionResults) :
    "WebRTC Local IP Country Mismatch" ∉ (calculateOverallResult results).detectedTypes := by
  simp [calculateOverallResult, mem_detectedTypesOf]

/-- Witness: the amended never-appears statement at the concrete
counter-scenario bundle. -/
theorem c6_local_ip_country_amended_witness :
    "WebRTC Local IP Country Mismatch" ∉ (calculateOverallResult c6CounterBundle).detectedTypes :=
  c6_local_ip_country_amended c6CounterBundle

/-- C7: for every EvidenceBundle in which every sub-record is absent
or neutral, the engine returns confidence score 0, no detection, and
empty detected-types and risk-factors lists. -/
theorem c7_neutral_bundle_zero (results : DetectionResults)
    (hip : AbsentOrNeutral NeutralIpAnalysis results.ipAnalysis)
    (hweb : AbsentOrNeutral NeutralWebrtcLeak results.webrtcLeak)
    (hfp : AbsentOrNeutral NeutralFingerprint results.fingerprint)
    (hloc : AbsentOrNeutral NeutralLocationMismatch results.locationMismatch)
    (hbot : AbsentOrNeutral NeutralBotDetection results.botDetection) :
    calculateOverallResult results
      = { isVpnDetected := false, confidenceScore := 0, detectedTypes := [], riskFactors := [] } := by
  have h1 : ipDatacenterFires results = false := by
    cases h : results.ipAnalysis with
    | none => simp [ipDatacenterFires, h]
    | some ip => rw [h] at hip; simp [ipDatacenterFires, h, hip.1]
  have h2 : ipHostingFires results = false := by
    cases h : results.ipAnalysis with
    | none => simp [ipHostingFires, h]
    | some ip => rw [h] at hip; simp [ipHostingFires, h, hip.2.1]
  have h3 : ipTorFires results = false := by
    cases h : results.ipAnalysis with
    | none => simp [ipTorFires, h]
    | some ip => rw [h] at hip; simp [ipTorFires, h, hip.2.2.1]
  have h4 : ipVpnDetectedFires results = false := by
    cases h : results.ipAnalysis with
    | none => simp [ipVpnDetectedFires, h]
    | some ip => rw [h] at hip; simp [ipVpnDetectedFires, h, hip.2.2.2.1]
  have h5 : ipBlacklistedFires results = false := by
    cases h : results.ipAnalysis with
    | none => simp [ipBlacklistedFires, h]
    | some ip => rw [h] at hip; simp [ipBlacklistedFires, h, hip.2.2.2.2.1]
  have h6 : webrtcLeakFires results = false := by
    cases h : results.webrtcLeak with
    | none => simp [webrtcLeakFires, h]
    | some w => rw [h] at hweb; simp [webrtcLeakFires, h, show w.hasLeak = false from hweb]
  have h7 : webrtcRelayFires results = false := by
    cases h : results.webrtcLeak with
    | none => simp [webrtcRelayFires, h]
    | some w => rw [h] at hweb; simp [webrtcRelayFires, h, show w.hasLeak = false from hweb]
  have h8 : webrtcSrflxFires results = false := by
    cases h : results.webrtcLeak with
    | none => simp [webrtcSrflxFires, h]
    | some w => rw [h] at hweb; simp [webrtcSrflxFires, h, show w.hasLeak = false from hweb]
  have h9 : locationMismatchFires results = false := by
    cases h : results.locationMismatch with
    | none => simp [locationMismatchFires, h]
    | some loc => rw [h] at hloc; simp [locationMismatchFires, h, show loc.hasMismatch = false from hloc]
  have h10 : botDetectionFires results = false := by
    cases h : results.botDetection with
    | none => simp [botDetectionFires, h]
    | some b => rw [h] at hbot; simp [botDetectionFires, h, show b.isBot = false from hbot]
  simp [calculateOverallResult, confidenceScore2, detectedTypesOf, riskFactorsOf,
    h1, h2, h3, h4, h5, h6, h7, h8, h9, h10,
    tzMismatch_of_neutral_fp hfp, contMismatch_of_neutral_fp hfp, spoofed_of_neutral_fp hfp,
    riskScoreValue_of_neutral hip, suspicion_of_neutral_fp hfp]

/-- Witness: the zero verdict at a concrete bundle with every
sub-record present and neutral. -/
theorem c7_neutral_bundle_zero_witness :
    calculateOverallResult c7WitnessBundle
      = { isVpnDetected := false, confidenceScore := 0, detectedTypes := [], riskFactors := [] } :=
  c7_neutral_bundle_zero c7WitnessBundle
    ⟨rfl, rfl, rfl, rfl, rfl, Or.inl rfl, Or.inl rfl, rfl⟩
    rfl
    ⟨rfl, Or.inl rfl⟩
    rfl
    rfl

/-- C8: setting any of the eight boolean evidence flags to true while
keeping every other field fixed never decreases the confidence score
(all row weights are nonnegative, and the rounding and the upper cap
are monotone). -/
theorem c8_flag_monotonicity (results : DetectionResults) (f : EvidenceFlag) :
    (calculateOverallResult results).confidenceScore
      ≤ (calculateOverallResult (setFlag f results)).confidenceScore := by
  have hmono : confidenceScore2 results ≤ confidenceScore2 (setFlag f results) := by
    cases f with
    | isDatacenter =>
      cases h : results.ipAnalysis with
      | none =>
        have heq : setFlag .isDatacenter results = results := by cases results; simp_all [setFlag]
        rw [heq]
      | some ip =>
        have hset : setFlag .isDatacenter results
            = { results with ipAnalysis := some { ip with isDatacenter := true } } := by
          simp [setFlag, h]
        rw [hset]
        have htz : resolvedIpTimezone { results with ipAnalysis := some { ip with isDatacenter := true } }
            = resolvedIpTimezone results := resolved_tz_ip_update h rfl rfl
        have hcc : ipCountryCode { results with ipAnalysis := some { ip with isDatacenter := true } }
            = ipCountryCode results := by simp [ipCountryCode, h]
        simp [confidenceScore2, ipDatacenterFires, ipHostingFires, ipTorFires,
          ipVpnDetectedFires, ipBlacklistedFires, riskScoreValue, webrtcLeakFires,
          webrtcRelayFires, webrtcSrflxFires, fingerprintTimezoneMismatchFires,
          fingerprintContinentMismatchFires, suspicionScoreValue, fingerprintSpoofedFires,
          locationMismatchFires, botDetectionFires, htz, hcc, h]
        cases ip.isDatacenter <;> simp
    | isHosting =>
      cases h : results.ipAnalysis with
      | none =>
        have heq : setFlag .isHosting results = results := by cases results; simp_all [setFlag]
        rw [heq]
      | some ip =>
        have hset : setFlag .isHosting results
            = { results with ipAnalysis := some { ip with isHosting := true } } := by
          simp [setFlag, h]
        rw [hset]
        have htz : resolvedIpTimezone { results with ipAnalysis := some { ip with isHosting := true } }
            = resolvedIpTimezone results := resolved_tz_ip_update h rfl rfl
        have hcc : ipCountryCode { results with ipAnalysis := some { ip with isHosting := true } }
            = ipCountryCode results := by simp [ipCountryCode, h]
        simp [confidenceScore2, ipDatacenterFires, ipHostingFires, ipTorFires,
          ipVpnDetectedFires, ipBlacklistedFires, riskScoreValue, webrtcLeakFires,
          webrtcRelayFires, webrtcSrflxFires, fingerprintTimezoneMismatchFires,
          fingerprintContinentMismatchFires, suspicionScoreValue, fingerprintSpoofedFires,
          locationMismatchFires, botDetectionFires, htz, hcc, h]
        cases ip.isHosting <;> simp
    | isTor =>
      cases h : results.ipAnalysis with
      | none =>
        have heq : setFlag .isTor results = results := by cases results; simp_all [setFlag]
        rw [heq]
      | some ip =>
        have hset : setFlag .isTor results
            = { results with ipAnalysis := some { ip with isTor := true } } := by
          simp [setFlag, h]
        rw [hset]
        have htz : resolvedIpTimezone { results with ipAnalysis := some { ip with isTor := true } }
            = resolvedIpTimezone results := resolved_tz_ip_update h rfl rfl
        have hcc : ipCountryCode { results with ipAnalysis := some { ip with isTor := true } }
            = ipCountryCode results := by simp [ipCountryCode, h]
        simp [confidenceScore2, ipDatacenterFires, ipHostingFires, ipTorFires,
          ipVpnDetectedFires, ipBlacklistedFires, riskScoreValue, webrtcLeakFires,
          webrtcRelayFires, webrtcSrflxFires, fingerprintTimezoneMismatchFires,
          fingerprintContinentMismatchFires, suspicionScoreValue, fingerprintSpoofedFires,
          locationMismatchFires, botDetectionFires, htz, hcc, h]
        cases ip.isTor <;> simp
    | vpnDetected =>
      cases h : results.ipAnalysis with
      | none =>
        have heq : setFlag .vpnDetected results = results := by cases results; simp_all [setFlag]
        rw [heq]
      | some ip =>
        have hset : setFlag .vpnDetected results
            = { results with ipAnalysis := some { ip with vpnDetected := true } } := by
          simp [setFlag, h]
        rw [hset]
        have htz : resolvedIpTimezone { results with ipAnalysis := some { ip with vpnDetected := true } }
            = resolvedIpTimezone results := resolved_tz_ip_update h rfl rfl
        have hcc : ipCountryCode { results with ipAnalysis := some { ip with vpnDetected := true } }
            = ipCountryCode results := by simp [ipCountryCode, h]
        simp [confidenceScore2, ipDatacenterFires, ipHostingFires, ipTorFires,
          ipVpnDetectedFires, ipBlacklistedFires, riskScoreValue, webrtcLeakFires,
          webrtcRelayFires, webrtcSrflxFires, fingerprintTimezoneMismatchFires,
          fingerprintContinentMismatchFires, suspicionScoreValue, fingerprintSpoofedFires,
          locationMismatchFires, botDetectionFires, htz, hcc, h]
        cases ip.vpnDetected <;> simp
    | blacklisted =>
      cases h : results.ipAnalysis with
      | none =>
        have heq : setFlag .blacklisted results = results := by cases results; simp_all [setFlag]
        rw [heq]
      | some ip =>
        have hset : setFlag .blacklisted results
            = { results with ipAnalysis := some { ip with blacklisted := true } } := by
          simp [setFlag, h]
        rw [hset]
        have htz : resolvedIpTimezone { results with ipAnalysis := some { ip with blacklisted := true } }
            = resolvedIpTimezone results := resolved_tz_ip_update h rfl rfl
        have hcc : ipCountryCode { results with ipAnalysis := some { ip with blacklisted := true } }
            = ipCountryCode results := by simp [ipCountryCode, h]
        simp [confidenceScore2, ipDatacenterFires, ipHostingFires, ipTorFires,
          ipVpnDetectedFires, ipBlacklistedFires, riskScoreValue, webrtcLeakFires,
          webrtcRelayFires, webrtcSrflxFires, fingerprintTimezoneMismatchFires,
          fingerprintContinentMismatchFires, suspicionScoreValue, fingerprintSpoofedFires,
          locationMismatchFires, botDetectionFires, htz, hcc, h]
        cases ip.blacklisted <;> simp
    | hasLeak =>
      cases h : results.webrtcLeak with
      | none =>
        have heq : setFlag .hasLeak results = results := by cases results; simp_all [setFlag]
        rw [heq]
      | some w =>
        have hset : setFlag .hasLeak results
            = { results with webrtcLeak := some { w with hasLeak := true } } := by
          simp [setFlag, h]
        rw [hset]
        simp [confidenceScore2, ipDatacenterFires, ipHostingFires, ipTorFires,
          ipVpnDetectedFires, ipBlacklistedFires, riskScoreValue, webrtcLeakFires,
          webrtcRelayFires, webrtcSrflxFires, fingerprintTimezoneMismatchFires,
          fingerprintContinentMismatchFires, suspicionScoreValue, fingerprintSpoofedFires,
          locationMismatchFires, botDetectionFires, resolvedIpTimezone, ipCountryCode, h]
        cases w.hasLeak <;> simp
        have h20 : (0:Int) ≤ (if (match w.candidateTypes with
            | none => false
            | some cts => decide ("relay" ∈ cts)) = true then 20 else 0) := by positivity
        have h10 : (0:Int) ≤ (if (match w.candidateTypes with
            | none => false
            | some cts => decide ("srflx" ∈ cts)) = true then 10 else 0) := by positivity
        linarith
    | hasMismatch =>
      cases h : results.locationMismatch with
      | none =>
        have heq : setFlag .hasMismatch results = results := by cases results; simp_all [setFlag]
        rw [heq]
      | some loc =>
        have hset : setFlag .hasMismatch results
            = { results with locationMismatch := some { loc with hasMismatch := true } } := by
          simp [setFlag, h]
        rw [hset]
        simp [confidenceScore2, ipDatacenterFires, ipHostingFires, ipTorFires,
          ipVpnDetectedFires, ipBlacklistedFires, riskScoreValue, webrtcLeakFires,
          webrtcRelayFires, webrtcSrflxFires, fingerprintTimezoneMismatchFires,
          fingerprintContinentMismatchFires, suspicionScoreValue, fingerprintSpoofedFires,
          locationMismatchFires, botDetectionFires, resolvedIpTimezone, ipCountryCode, h]
        cases loc.hasMismatch <;> simp
    | isBot =>
      cases h : results.botDetection with
      | none =>
        have heq : setFlag .isBot results = results := by cases results; simp_all [setFlag]
        rw [heq]
      | some b =>
        have hset : setFlag .isBot results
            = { results with botDetection := some { b with isBot := true } } := by
          simp [setFlag, h]
        rw [hset]
        simp [confidenceScore2, ipDatacenterFires, ipHostingFires, ipTorFires,
          ipVpnDetectedFires, ipBlacklistedFires, riskScoreValue, webrtcLeakFires,
          webrtcRelayFires, webrtcSrflxFires, fingerprintTimezoneMismatchFires,
          fingerprintContinentMismatchFires, suspicionScoreValue, fingerprintSpoofedFires,
          locationMismatchFires, botDetectionFires, resolvedIpTimezone, ipCountryCode, h]
        cases b.isBot <;> simp
  simp only [calculateOverallResult]
  exact min_le_min le_rfl (Int.ediv_le_ediv (by norm_num) (by omega))

/-- Witness: monotonicity at a concrete bundle and flag (turning on
the location-mismatch flag of a present record). -/
theorem c8_flag_monotonicity_witness :
    (calculateOverallResult c8WitnessBundle).confidenceScore
      ≤ (calculateOverallResult (setFlag .hasMismatch c8WitnessBundle)).confidenceScore :=
  c8_flag_monotonicity c8WitnessBundle .hasMismatch

/-- C9: inside a leaking bundle, a "relay" candidate type adds 10
points with the label "WebRTC Relay Candidate Detected" and an "srflx"
candidate type adds 5 points with the label
"WebRTC Server Reflexive Candidate Detected"; the two labels appear
exactly under those conditions, and with no leak the candidate data
contributes nothing (removing it leaves the verdict unchanged). -/
theorem c9_candidate_type_rows (results : DetectionResults) :
    (("WebRTC Relay Candidate Detected" ∈ (calculateOverallResult results).detectedTypes) ↔
      ∃ w, results.webrtcLeak = some w ∧ w.hasLeak = true
        ∧ ∃ cts, w.candidateTypes = some cts ∧ "relay" ∈ cts)
    ∧ (("WebRTC Server Reflexive Candidate Detected" ∈ (calculateOverallResult results).detectedTypes) ↔
      ∃ w, results.webrtcLeak = some w ∧ w.hasLeak = true
        ∧ ∃ cts, w.candidateTypes = some cts ∧ "srflx" ∈ cts)
    ∧ (confidenceScore2 results = confidenceScore2 (stripCandidateTypes results)
        + (if webrtcRelayFires results then 20 else 0)
        + (if webrtcSrflxFires results then 10 else 0))
    ∧ (webrtcLeakFires results = false →
        calculateOverallResult results = calculateOverallResult (stripCandidateTypes results)) := by
  obtain ⟨p1, p2, p3, p4, p5, p6, p7, p8, p9⟩ := strip_score_parts results
  refine ⟨?_, ?_, ?_, ?_⟩
  · rw [show (calculateOverallResult results).detectedTypes = detectedTypesOf results from rfl]
    rw [mem_detectedTypesOf]
    simp [webrtcRelayFires]
    cases h : results.webrtcLeak with
    | none => simp
    | some w =>
      cases hc : w.candidateTypes with
      | none => simp [hc]
      | some cts => simp [hc]
  · rw [show (calculateOverallResult results).detectedTypes = detectedTypesOf results from rfl]
    rw [mem_detectedTypesOf]
    simp [webrtcSrflxFires]
    cases h : results.webrtcLeak with
    | none => simp
    | some w =>
      cases hc : w.candidateTypes with
      | none => simp [hc]
      | some cts => simp [hc]
  · unfold confidenceScore2
    rw [p1, p2, p3, p4, p5, p6, p7, p8, strip_webrtcLeakFires, strip_webrtcRelayFires,
      strip_webrtcSrflxFires, strip_tzFires, strip_contFires, strip_suspicion, strip_spoofedFires]
    simp
    ring
  · intro hleak
    have hr : webrtcRelayFires results = false := by
      cases h : results.webrtcLeak with
      | none => simp [webrtcRelayFires, h]
      | some w =>
        simp [webrtcLeakFires, h] at hleak
        simp [webrtcRelayFires, h, hleak]
    have hs : webrtcSrflxFires results = false := by
      cases h : results.webrtcLeak with
      | none => simp [webrtcSrflxFires, h]
      | some w =>
        simp [webrtcLeakFires, h] at hleak
        simp [webrtcSrflxFires, h, hleak]
    have hscore : confidenceScore2 results = confidenceScore2 (stripCandidateTypes results) := by
      unfold confidenceScore2
      rw [p1, p2, p3, p4, p5, p6, p7, p8, strip_webrtcLeakFires, strip_webrtcRelayFires,
        strip_webrtcSrflxFires, strip_tzFires, strip_contFires, strip_suspicion, strip_spoofedFires,
        hr, hs]
    have htypes : detectedTypesOf results = detectedTypesOf (stripCandidateTypes results) := by
      unfold detectedTypesOf
      rw [p1, p2, p3, p4, p5, strip_webrtcLeakFires, strip_webrtcRelayFires,
        strip_webrtcSrflxFires, strip_tzFires, strip_contFires, strip_spoofedFires, p7, p8, hr, hs]
    have hfactors : riskFactorsOf results = riskFactorsOf (stripCandidateTypes results) := by
      unfold riskFactorsOf
      rw [p1, p2, p3, p4, p5, strip_webrtcLeakFires, strip_webrtcRelayFires,
        strip_webrtcSrflxFires, strip_tzFires, strip_contFires, strip_spoofedFires, p7, p8, p9, hr, hs]
    simp [calculateOverallResult, hscore, htypes, hfactors]

/-- Witness: the relay label fires on a concrete leaking bundle with a
relay candidate, and removing candidate data from a concrete
no-leak bundle leaves its verdict unchanged. -/
theorem c9_candidate_type_rows_witness :
    ("WebRTC Relay Candidate Detected" ∈ (calculateOverallResult c9WitnessBundle).detectedTypes)
      ∧ calculateOverallResult c9WitnessBundleNoLeak
          = calculateOverallResult (stripCandidateTypes c9WitnessBundleNoLeak) :=
  ⟨(c9_candidate_type_rows c9WitnessBundle).1.mpr
      ⟨_, rfl, rfl, ⟨["host", "srflx", "relay"], rfl, by decide⟩⟩,
    (c9_candidate_type_rows c9WitnessBundleNoLeak).2.2.2 rfl⟩

/-- C10: the "Fingerprint Spoofed" row appends its label exactly when
the fingerprint is present and the timezone-mismatch row fired, the
continent-mismatch row fired, or the suspicion score exceeds 60; it
adds exactly 10 points (20 half-points) and carries the risk factor
"Browser fingerprint data appears spoofed or inconsistent". -/
theorem c10_fingerprint_spoofed_row (results : DetectionResults) :
    (("Fingerprint Spoofed" ∈ (calculateOverallResult results).detectedTypes) ↔
      ∃ fp, results.fingerprint = some fp
        ∧ ("Fingerprint Timezone Mismatch" ∈ (calculateOverallResult results).detectedTypes
            ∨ "Fingerprint Continent Mismatch" ∈ (calculateOverallResult results).detectedTypes
            ∨ 60 < suspicionScoreValue results))
    ∧ (fingerprintSpoofedFires results = true →
        "Browser fingerprint data appears spoofed or inconsistent"
          ∈ (calculateOverallResult results).riskFactors)
    ∧ ((calculateOverallResult results).detectedTypes.count "Fingerprint Spoofed"
        = if fingerprintSpoofedFires results then 1 else 0)
    ∧ (confidenceScore2 results
        = confidenceScore2SansSpoofedRow results
          + (if fingerprintSpoofedFires results then 20 else 0)) := by
  refine ⟨?_, ?_, ?_, ?_⟩
  · rw [show (calculateOverallResult results).detectedTypes = detectedTypesOf results from rfl]
    rw [mem_detectedTypesOf, mem_detectedTypesOf, mem_detectedTypesOf]
    simp only [fingerprintSpoofedFires]
    cases h : results.fingerprint with
    | none => simp
    | some fp => simp [or_assoc]
  · intro hfires
    rw [show (calculateOverallResult results).riskFactors = riskFactorsOf results from rfl]
    simp [riskFactorsOf, mem_ite_singleton, hfires]
  · simp [calculateOverallResult, detectedTypesOf, List.count_append, count_ite_singleton]
  · unfold confidenceScore2 confidenceScore2SansSpoofedRow
    ring

/-- Witness: the spoofed-fingerprint risk factor on a concrete bundle
whose suspicion score is 80. -/
theorem c10_fingerprint_spoofed_row_witness :
    "Browser fingerprint data appears spoofed or inconsistent"
      ∈ (calculateOverallResult c10WitnessBundle).riskFactors :=
  (c10_fingerprint_spoofed_row c10WitnessBundle).2.1 (by decide)

end VpnDetection
